import Mathlib

/-!
Shallow embedding of the like-toggle client scripts
(`src/app/static/js/likes.js` and `src/app/static/js/liked-posts.js`).

The DOM is modelled only as far as the scripts touch it: a like button is a
record of its `disabled` flag, its `liked` CSS class, its optional
`.like-icon` and `.like-text` sub-elements and whether its innerHTML is
currently the loading spinner.  Network interaction is modelled by passing
the response of the single fetch performed by each function as an explicit
`NetResult` argument; the list of requests issued is returned in the
outcome so that request-counting properties can be stated.
-/

namespace LikesClient

/-- The `.like-icon` sub-element: only its inline `fill`/`stroke` styles are
touched by the scripts. -/
structure Icon where
  fill : String
  stroke : String
deriving DecidableEq, Repr

/-- The `.like-text` sub-element: only its `textContent` is touched. -/
structure LikeText where
  textContent : String
deriving DecidableEq, Repr

/-- A like button as the scripts see it.  `spinner = true` means the
button's innerHTML has been replaced by the loading spinner markup (in
which case the icon/text children are gone from the live DOM). -/
structure Button where
  disabled : Bool
  classLiked : Bool
  icon : Option Icon
  text : Option LikeText
  spinner : Bool
deriving DecidableEq, Repr

/-- Result of one `fetch`: the promise rejects (`netError`), or a response
arrives with an `ok` flag and a parsed JSON body. -/
inductive NetResult (α : Type) where
  | netError : NetResult α
  | resp (ok : Bool) (body : α) : NetResult α
deriving DecidableEq, Repr

/-- JSON body sent to POST `/api/likes/toggle`. -/
structure ToggleRequest where
  post_id : Int
  liked : Bool
deriving DecidableEq, Repr

/-- The two `alert(...)` messages `likes.js` can show: the sign-in notice
and the generic toggle-failure notice. -/
inductive AlertKind where
  | signIn
  | toggleError
deriving DecidableEq, Repr

/-- JavaScript string trimming, over the character list. -/
def jsTrim (s : String) : String :=
  String.mk
    (((s.toList.dropWhile Char.isWhitespace).reverse.dropWhile Char.isWhitespace).reverse)

/-- JavaScript `parseInt` on a string, restricted to base-10 numerals as
used by this repository: skip leading whitespace, optional sign, then the
longest leading digit run; no digits means `NaN`, modelled as `none`. -/
def parseIntJS (s : String) : Option Int :=
  let signAndDigits : Int × List Char :=
    match s.toList.dropWhile Char.isWhitespace with
    | '-' :: cs => (-1, cs)
    | '+' :: cs => (1, cs)
    | cs => (1, cs)
  let ds := signAndDigits.2.takeWhile Char.isDigit
  if ds.isEmpty then none
  else some (signAndDigits.1 * (ds.foldl (fun n c => n * 10 + (c.toNat - 48)) 0 : Nat))

/-- `getCurrentUserId` (likes.js lines 4-12): read the `user-id` meta
element; missing element, empty or whitespace content, or a content that
`parseInt` cannot parse all yield `null`. -/
def getCurrentUserId (meta : Option String) : Option Int :=
  match meta with
  | none => none
  | some content =>
    if content = "" then none
    else if jsTrim content = "" then none
    else parseIntJS content

/-- JavaScript truthiness of the `userId` value: `null` and `0` are falsy,
every other number is truthy (`if (!userId) ...`). -/
def jsTruthyId : Option Int → Bool
  | none => false
  | some n => decide (n ≠ 0)

/-- `updateLikeButton` (likes.js lines 122-143): repaint the liked class,
the icon fill/stroke and the label text from the given boolean; a null
button is left alone. -/
def updateLikeButton : Option Button → Bool → Option Button
  | none, _ => none
  | some b, true =>
    some { b with
      classLiked := true,
      icon := b.icon.map fun i => { i with fill := "#e91e63", stroke := "#e91e63" },
      text := b.text.map fun t => { t with textContent := "Лайкнуто" } }
  | some b, false =>
    some { b with
      classLiked := false,
      icon := b.icon.map fun i => { i with fill := "none", stroke := "" },
      text := b.text.map fun t => { t with textContent := "Лайк" } }

/-- Outcome of one `isLiked` call: the boolean returned to the caller and
the number of status requests issued. -/
structure IsLikedOutcome where
  result : Bool
  requests : Nat
deriving DecidableEq, Repr

/-- `isLiked` (likes.js lines 15-28): falsy user id short-circuits to
`false` with no request; otherwise one GET is issued and a rejected fetch
or a non-ok response is caught and degraded to `false`. -/
def isLiked (postId : Int) (userId : Option Int) (net : NetResult Bool) : IsLikedOutcome :=
  if jsTruthyId userId then
    match net with
    | NetResult.netError => { result := false, requests := 1 }
    | NetResult.resp false _ => { result := false, requests := 1 }
    | NetResult.resp true body => { result := body, requests := 1 }
  else
    { result := false, requests := 0 }

/-- Outcome of one `toggleLike` call: the boolean returned to the caller,
the final state of the button argument, the alerts shown and the toggle
requests issued. -/
structure ToggleOutcome where
  result : Bool
  button : Option Button
  alerts : List AlertKind
  requests : List ToggleRequest
deriving DecidableEq, Repr

/-- `toggleLike` (likes.js lines 31-102).  Falsy user id: sign-in alert,
return `false`, nothing else.  Otherwise: clone the icon/text children,
disable the button and swap in the spinner, POST `{post_id, liked: true}`;
on an ok response rebuild the children from the clones, repaint from the
response boolean and re-enable; on a rejected fetch or a non-ok response
the catch block re-enables the button and re-queries `.like-icon` and
`.like-text` from the live button (which now holds only the spinner) so
the restore branch runs only if both are found there. -/
def toggleLike (postId : Int) (userId : Option Int) (button : Option Button)
    (net : NetResult Bool) : ToggleOutcome :=
  if jsTruthyId userId then
    let originalIcon := button.bind Button.icon
    let originalText := button.bind Button.text
    let locked := button.map fun b =>
      { b with disabled := true, icon := none, text := none, spinner := true }
    let req : ToggleRequest := { post_id := postId, liked := true }
    match net with
    | NetResult.resp true liked =>
      let rebuilt := locked.map fun b =>
        { b with spinner := false, icon := originalIcon, text := originalText }
      let updated := updateLikeButton rebuilt liked
      let done := updated.map fun b => { b with disabled := false }
      { result := liked, button := done, alerts := [], requests := [req] }
    | _ =>
      let failed := locked.map fun b =>
        if b.icon.isSome && b.text.isSome then
          { b with disabled := false, spinner := false }
        else
          { b with disabled := false }
      { result := false, button := failed, alerts := [AlertKind.toggleError],
        requests := [req] }
  else
    { result := false, button := button, alerts := [AlertKind.signIn], requests := [] }

/-- Outcome of the synchronous prefix of the delegated click handler of
`setupLikeButtons` (likes.js lines 182-209): the button state reached when
the handler first suspends (or returns), how many toggle requests have
been started, and any alert already shown. -/
structure ClickOutcome where
  button : Button
  netStarted : Nat
  alerts : List AlertKind
deriving DecidableEq, Repr

/-- Synchronous prefix of the `setupLikeButtons` click handler on a click
that did land on a like button: return if the button is disabled; parse
`data-post-id` (an absent attribute parses to NaN) and return if NaN;
then run `toggleLike` up to its first suspension point, i.e. either the
sign-in alert and return for a falsy user id, or the lock (disable +
spinner) immediately followed by starting the toggle fetch. -/
def likeClickSync (b : Button) (attr : Option String) (meta : Option String) : ClickOutcome :=
  if b.disabled then
    { button := b, netStarted := 0, alerts := [] }
  else
    match attr.bind parseIntJS with
    | none => { button := b, netStarted := 0, alerts := [] }
    | some _ =>
      if jsTruthyId (getCurrentUserId meta) then
        { button := { b with disabled := true, icon := none, text := none, spinner := true },
          netStarted := 1, alerts := [] }
      else
        { button := b, netStarted := 0, alerts := [AlertKind.signIn] }

/-- Inline styles of an `.article-card` on the liked-posts page, as far as
liked-posts.js touches them. -/
structure CardStyle where
  transition : String
  opacity : String
  transform : String
deriving DecidableEq, Repr

/-- An `.article-card` in the `.articles-list` container. -/
structure ArticleCard where
  post_id : Int
  style : CardStyle
deriving DecidableEq, Repr

/-- The styles liked-posts.js sets on a card to start the removal
animation (liked-posts.js lines 47-49). -/
def unlikeAnimStyle : CardStyle :=
  { transition := "opacity 0.3s ease, transform 0.3s ease",
    opacity := "0",
    transform := "scale(0.95)" }

/-- Outcome of one click handled by the liked-posts page handler:
`animStyle` is the style written to the clicked card when the removal
animation starts (`none` if the card was not touched), `removalDelayMs`
the `setTimeout` delay before the card is removed, `cardsAfter` the list
contents after any scheduled removal has run, `reloaded` whether
`window.location.reload()` was invoked. -/
structure LikedPageOutcome where
  buttonDisabled : Bool
  animStyle : Option CardStyle
  removalDelayMs : Option Nat
  cardsAfter : List ArticleCard
  reloaded : Bool
  alerts : List AlertKind
  requests : List ToggleRequest
deriving DecidableEq, Repr

/-- The liked-posts page click handler (liked-posts.js lines 10-70), for a
click landing on a like button contained in the card at position `cardIdx`
of the list (`none` when the button has no `.article-card` ancestor).
Disabled button, falsy user id or NaN post id: silent return.  Otherwise
disable the button and POST the toggle; on failure re-enable and alert; on
`liked = true` just re-enable; on `liked = false` animate the clicked card
and 300 ms later remove it, reloading the page if no card remains. -/
def likedPostsClick (cards : List ArticleCard) (cardIdx : Option Nat)
    (btnDisabled : Bool) (attr : Option String) (meta : Option String)
    (net : NetResult Bool) : LikedPageOutcome :=
  let noop : LikedPageOutcome :=
    { buttonDisabled := btnDisabled, animStyle := none, removalDelayMs := none,
      cardsAfter := cards, reloaded := false, alerts := [], requests := [] }
  if btnDisabled then noop
  else if jsTruthyId (getCurrentUserId meta) = false then noop
  else
    match attr.bind parseIntJS with
    | none => noop
    | some pid =>
      let req : ToggleRequest := { post_id := pid, liked := true }
      match net with
      | NetResult.resp true liked =>
        if liked then
          { buttonDisabled := false, animStyle := none, removalDelayMs := none,
            cardsAfter := cards, reloaded := false, alerts := [], requests := [req] }
        else
          match cardIdx with
          | none =>
            { buttonDisabled := true, animStyle := none, removalDelayMs := none,
              cardsAfter := cards, reloaded := false, alerts := [], requests := [req] }
          | some i =>
            let remaining := cards.eraseIdx i
            { buttonDisabled := true, animStyle := some unlikeAnimStyle,
              removalDelayMs := some 300, cardsAfter := remaining,
              reloaded := remaining.isEmpty, alerts := [], requests := [req] }
      | _ =>
        { buttonDisabled := false, animStyle := none, removalDelayMs := none,
          cardsAfter := cards, reloaded := false, alerts := [AlertKind.toggleError],
          requests := [req] }

/-- Outcome of `initializeLikes`: the repainted buttons and the number of
status requests issued. -/
structure InitOutcome where
  buttons : List Button
  statusRequests : Nat
deriving DecidableEq, Repr

/-- `initializeLikes` (likes.js lines 146-177) over the buttons matching
`.like-button[data-post-id]`, each paired with its `data-post-id`
attribute value.  Falsy user id: repaint every button to not-liked, no
requests.  Otherwise one `isLiked` query per button whose attribute
parses (responses given by `net`, indexed by post id), painting each
button from its own response; unparsable attributes are skipped. -/
def initializeLikes (meta : Option String) (buttons : List (String × Button))
    (net : Int → NetResult Bool) : InitOutcome :=
  let userId := getCurrentUserId meta
  if jsTruthyId userId then
    { buttons := buttons.map fun ab =>
        match parseIntJS ab.1 with
        | none => ab.2
        | some pid => (updateLikeButton (some ab.2) (isLiked pid userId (net pid)).result).getD ab.2,
      statusRequests := (buttons.filter fun ab => (parseIntJS ab.1).isSome).length }
  else
    { buttons := buttons.map fun ab => (updateLikeButton (some ab.2) false).getD ab.2,
      statusRequests := 0 }

/-- A button is painted in the visual state named by `v`: the `liked` CSS
class, the icon fill/stroke and the label text all match `v` (sub-element
conditions hold for whichever sub-elements the button has). -/
def paintedAs (b : Button) (v : Bool) : Prop :=
  b.classLiked = v ∧
  (∀ i, b.icon = some i →
    i.fill = (if v then "#e91e63" else "none") ∧
    i.stroke = (if v then "#e91e63" else "")) ∧
  (∀ t, b.text = some t →
    t.textContent = (if v then "Лайкнуто" else "Лайк"))

/-- The boolean a caller of `toggleLike` receives for a given network
result: the response body's `liked` field on success, `false` on any
failure. -/
def netResultLiked : NetResult Bool → Bool
  | NetResult.resp true v => v
  | _ => false

/-- A sample icon/text/button in the initial not-liked markup, used for
concrete evaluations. -/
def demoIcon : Icon := { fill := "none", stroke := "" }

def demoText : LikeText := { textContent := "Лайк" }

def demoButton : Button :=
  { disabled := false, classLiked := false, icon := some demoIcon,
    text := some demoText, spinner := false }

def demoCard : ArticleCard :=
  { post_id := 7, style := { transition := "", opacity := "", transform := "" } }

/-- Repainting a (non-null) button always yields a button painted as the
given boolean, with the same sub-element presence, disabled flag and
spinner flag. -/
theorem updateLikeButton_paints (b : Button) (v : Bool) :
    ∃ b', updateLikeButton (some b) v = some b' ∧ paintedAs b' v ∧
      b'.icon.isSome = b.icon.isSome ∧ b'.text.isSome = b.text.isSome ∧
      b'.disabled = b.disabled ∧ b'.spinner = b.spinner := by
  cases v <;> rcases b with ⟨bd, bc, _ | i, _ | t, bs⟩ <;>
    simp [updateLikeButton, paintedAs]

/-- Claim C1, evidence of the code bug: at the failing input — a button
holding both its icon and text sub-elements, and a network error during
the toggle — `toggleLike` returns false, shows the failure notice and
re-enables the button, but the button ends with `icon = none`,
`text = none` and the spinner still in place: the original sub-elements
are not restored (the catch block re-queries them from the live button,
whose innerHTML was already replaced by the spinner, so the restore branch
never fires). -/
theorem toggleLike_failure_leaves_spinner :
    (toggleLike 7 (some 42) (some demoButton) NetResult.netError).result = false ∧
    (toggleLike 7 (some 42) (some demoButton) NetResult.netError).alerts =
      [AlertKind.toggleError] ∧
    (toggleLike 7 (some 42) (some demoButton) NetResult.netError).button =
      some { disabled := false, classLiked := false, icon := none, text := none,
             spinner := true } := by
  refine ⟨rfl, rfl, rfl⟩

/-- Claim C2: on every successful toggle response, the button is rebuilt
from the cloned sub-elements (same sub-element presence), repainted so
that its visual state equals exactly the response boolean regardless of
its prior state, re-enabled, and that boolean is returned. -/
theorem toggleLike_success_reconciles (pid : Int) (uid : Option Int) (b : Button) (v : Bool)
    (hu : jsTruthyId uid = true) :
    (toggleLike pid uid (some b) (NetResult.resp true v)).result = v ∧
    ∃ b', (toggleLike pid uid (some b) (NetResult.resp true v)).button = some b' ∧
      b'.disabled = false ∧ b'.spinner = false ∧ paintedAs b' v ∧
      b'.icon.isSome = b.icon.isSome ∧ b'.text.isSome = b.text.isSome := by
  rcases b with ⟨bd, bc, _ | i, _ | t, bs⟩ <;> cases v <;>
    simp [toggleLike, hu, updateLikeButton, paintedAs]

/-- Concrete instance of `toggleLike_success_reconciles`: user 42 toggles
post 7 on the demo button and the server answers `{liked: true}`. -/
theorem toggleLike_success_reconciles_witness :
    jsTruthyId (some 42) = true ∧
    ((toggleLike 7 (some 42) (some demoButton) (NetResult.resp true true)).result = true ∧
     ∃ b', (toggleLike 7 (some 42) (some demoButton) (NetResult.resp true true)).button =
        some b' ∧
      b'.disabled = false ∧ b'.spinner = false ∧ paintedAs b' true ∧
      b'.icon.isSome = demoButton.icon.isSome ∧
      b'.text.isSome = demoButton.text.isSome) :=
  ⟨by decide, toggleLike_success_reconciles 7 (some 42) demoButton true (by decide)⟩

/-- Claim C3: a first click on an enabled button with a valid post id and
a truthy viewer identity starts exactly one toggle request and leaves the
button disabled before any suspension point, so a second click on the
resulting button before the first request resolves is a no-op starting
zero requests. -/
theorem likeClick_lock_single_request (b : Button) (attr : Option String)
    (meta : Option String) (pid : Int) (hd : b.disabled = false)
    (hp : attr.bind parseIntJS = some pid)
    (hu : jsTruthyId (getCurrentUserId meta) = true) :
    (likeClickSync b attr meta).netStarted = 1 ∧
    (likeClickSync b attr meta).button.disabled = true ∧
    likeClickSync (likeClickSync b attr meta).button attr meta =
      { button := (likeClickSync b attr meta).button, netStarted := 0, alerts := [] } := by
  simp [likeClickSync, hd, hp, hu]

/-- Concrete instance of `likeClick_lock_single_request`: two rapid clicks
on the demo button by user 42 on post 7 issue exactly one request. -/
theorem likeClick_lock_single_request_witness :
    demoButton.disabled = false ∧
    (some "7").bind parseIntJS = some 7 ∧
    jsTruthyId (getCurrentUserId (some "42")) = true ∧
    ((likeClickSync demoButton (some "7") (some "42")).netStarted = 1 ∧
     (likeClickSync demoButton (some "7") (some "42")).button.disabled = true ∧
     likeClickSync (likeClickSync demoButton (some "7") (some "42")).button
         (some "7") (some "42") =
       { button := (likeClickSync demoButton (some "7") (some "42")).button,
         netStarted := 0, alerts := [] }) :=
  ⟨by decide, by decide, by decide,
   likeClick_lock_single_request demoButton (some "7") (some "42") 7
     (by decide) (by decide) (by decide)⟩

/-- Claim C4: on the liked-posts page, a toggle answered `{liked: false}`
sets the removal animation styles on the clicked card, removes exactly
that card 300 ms later, and reloads the page exactly when no card
remains; a toggle answered `{liked: true}` only re-enables the button and
removes nothing. -/
theorem likedPosts_unlike_removes_card (cards : List ArticleCard) (i : Nat)
    (attr : Option String) (meta : Option String) (pid : Int)
    (hi : i < cards.length) (hp : attr.bind parseIntJS = some pid)
    (hu : jsTruthyId (getCurrentUserId meta) = true) :
    ((likedPostsClick cards (some i) false attr meta (NetResult.resp true false)).animStyle =
        some unlikeAnimStyle ∧
     (likedPostsClick cards (some i) false attr meta (NetResult.resp true false)).removalDelayMs =
        some 300 ∧
     (likedPostsClick cards (some i) false attr meta (NetResult.resp true false)).cardsAfter =
        cards.eraseIdx i ∧
     (likedPostsClick cards (some i) false attr meta (NetResult.resp true false)).cardsAfter.length
        + 1 = cards.length ∧
     ((likedPostsClick cards (some i) false attr meta (NetResult.resp true false)).reloaded = true
        ↔ cards.eraseIdx i = [])) ∧
    ((likedPostsClick cards (some i) false attr meta (NetResult.resp true true)).buttonDisabled =
        false ∧
     (likedPostsClick cards (some i) false attr meta (NetResult.resp true true)).cardsAfter =
        cards ∧
     (likedPostsClick cards (some i) false attr meta (NetResult.resp true true)).animStyle =
        none ∧
     (likedPostsClick cards (some i) false attr meta (NetResult.resp true true)).reloaded =
        false) := by
  refine ⟨⟨?_, ?_, ?_, ?_, ?_⟩, ?_, ?_, ?_, ?_⟩ <;>
    simp [likedPostsClick, hp, hu, List.isEmpty_iff, List.length_eraseIdx_add_one hi]

/-- Concrete instance of `likedPosts_unlike_removes_card`: unliking the
only card of the list removes it and triggers the reload. -/
theorem likedPosts_unlike_removes_card_witness :
    0 < [demoCard].length ∧
    (some "7").bind parseIntJS = some 7 ∧
    jsTruthyId (getCurrentUserId (some "42")) = true ∧
    (((likedPostsClick [demoCard] (some 0) false (some "7") (some "42")
          (NetResult.resp true false)).animStyle = some unlikeAnimStyle ∧
      (likedPostsClick [demoCard] (some 0) false (some "7") (some "42")
          (NetResult.resp true false)).removalDelayMs = some 300 ∧
      (likedPostsClick [demoCard] (some 0) false (some "7") (some "42")
          (NetResult.resp true false)).cardsAfter = [demoCard].eraseIdx 0 ∧
      (likedPostsClick [demoCard] (some 0) false (some "7") (some "42")
          (NetResult.resp true false)).cardsAfter.length + 1 = [demoCard].length ∧
      ((likedPostsClick [demoCard] (some 0) false (some "7") (some "42")
          (NetResult.resp true false)).reloaded = true ↔ [demoCard].eraseIdx 0 = [])) ∧
     ((likedPostsClick [demoCard] (some 0) false (some "7") (some "42")
          (NetResult.resp true true)).buttonDisabled = false ∧
      (likedPostsClick [demoCard] (some 0) false (some "7") (some "42")
          (NetResult.resp true true)).cardsAfter = [demoCard] ∧
      (likedPostsClick [demoCard] (some 0) false (some "7") (some "42")
          (NetResult.resp true true)).animStyle = none ∧
      (likedPostsClick [demoCard] (some 0) false (some "7") (some "42")
          (NetResult.resp true true)).reloaded = false)) :=
  ⟨by decide, by decide, by decide,
   likedPosts_unlike_removes_card [demoCard] 0 (some "7") (some "42") 7
     (by decide) (by decide) (by decide)⟩

/-- Claim C5: with no viewer identity, `initializeLikes` issues zero
status requests and paints every matching button to the not-liked state. -/
theorem initializeLikes_anonymous (meta : Option String)
    (buttons : List (String × Button)) (net : Int → NetResult Bool)
    (h : getCurrentUserId meta = none) :
    (initializeLikes meta buttons net).statusRequests = 0 ∧
    (initializeLikes meta buttons net).buttons.length = buttons.length ∧
    ∀ b' ∈ (initializeLikes meta buttons net).buttons, paintedAs b' false := by
  have hu : jsTruthyId (getCurrentUserId meta) = false := by rw [h]; rfl
  refine ⟨by simp [initializeLikes, hu], by simp [initializeLikes, hu], ?_⟩
  intro b' hb'
  simp only [initializeLikes, hu, Bool.false_eq_true, if_false, List.mem_map] at hb'
  obtain ⟨ab, -, rfl⟩ := hb'
  obtain ⟨b'', hb'', hpaint, -⟩ := updateLikeButton_paints ab.2 false
  rw [hb'']
  exact hpaint

/-- Concrete instance of `initializeLikes_anonymous`: a page without the
user-id meta element, holding one button for post 7. -/
theorem initializeLikes_anonymous_witness :
    getCurrentUserId none = none ∧
    ((initializeLikes none [("7", demoButton)] (fun _ => NetResult.netError)).statusRequests = 0 ∧
     (initializeLikes none [("7", demoButton)] (fun _ => NetResult.netError)).buttons.length =
       [("7", demoButton)].length ∧
     ∀ b' ∈ (initializeLikes none [("7", demoButton)] (fun _ => NetResult.netError)).buttons,
       paintedAs b' false) :=
  ⟨rfl, initializeLikes_anonymous none [("7", demoButton)] (fun _ => NetResult.netError) rfl⟩

/-- Claim C6, counterexample: an anonymous click on the liked-items view
(no user-id meta element, enabled button in the only card, valid post id)
issues no request — but also shows no notice at all, and leaves the page
untouched: the liked-posts handler returns silently, contradicting the
claim that a notice asking to authenticate is surfaced on any view. -/
theorem likedPosts_anonymous_silent :
    (likedPostsClick [demoCard] (some 0) false (some "7") none
      (NetResult.resp true false)).requests = [] ∧
    (likedPostsClick [demoCard] (some 0) false (some "7") none
      (NetResult.resp true false)).alerts = [] ∧
    (likedPostsClick [demoCard] (some 0) false (some "7") none
      (NetResult.resp true false)).cardsAfter = [demoCard] := by
  refine ⟨rfl, rfl, rfl⟩

/-- Claim C6 as amended: anonymous viewers never trigger a mutating call —
neither handler sends a toggle request; the generic `toggleLike` shows the
sign-in notice, returns false and leaves the button untouched, while the
liked-items handler returns silently, with no notice and no change. -/
theorem anonymous_never_mutates (pid : Int) (uid : Option Int) (btn : Option Button)
    (net1 : NetResult Bool) (cards : List ArticleCard) (ci : Option Nat) (bd : Bool)
    (attr : Option String) (meta : Option String) (net2 : NetResult Bool)
    (hu : jsTruthyId uid = false) (hm : jsTruthyId (getCurrentUserId meta) = false) :
    (toggleLike pid uid btn net1).requests = [] ∧
    (toggleLike pid uid btn net1).alerts = [AlertKind.signIn] ∧
    (toggleLike pid uid btn net1).result = false ∧
    (toggleLike pid uid btn net1).button = btn ∧
    (likedPostsClick cards ci bd attr meta net2).requests = [] ∧
    (likedPostsClick cards ci bd attr meta net2).alerts = [] ∧
    (likedPostsClick cards ci bd attr meta net2).cardsAfter = cards := by
  cases bd <;> simp [toggleLike, likedPostsClick, hu, hm]

/-- Concrete instance of `anonymous_never_mutates`: no user-id meta
element, one card, post 7. -/
theorem anonymous_never_mutates_witness :
    jsTruthyId none = false ∧
    jsTruthyId (getCurrentUserId none) = false ∧
    ((toggleLike 7 none (some demoButton) NetResult.netError).requests = [] ∧
     (toggleLike 7 none (some demoButton) NetResult.netError).alerts =
       [AlertKind.signIn] ∧
     (toggleLike 7 none (some demoButton) NetResult.netError).result = false ∧
     (toggleLike 7 none (some demoButton) NetResult.netError).button =
       some demoButton ∧
     (likedPostsClick [demoCard] (some 0) false (some "7") none
       (NetResult.resp true false)).requests = [] ∧
     (likedPostsClick [demoCard] (some 0) false (some "7") none
       (NetResult.resp true false)).alerts = [] ∧
     (likedPostsClick [demoCard] (some 0) false (some "7") none
       (NetResult.resp true false)).cardsAfter = [demoCard]) :=
  ⟨rfl, rfl,
   anonymous_never_mutates 7 none (some demoButton) NetResult.netError [demoCard]
     (some 0) false (some "7") none (NetResult.resp true false) rfl rfl⟩

/-- Claim C7: every toggle with a truthy viewer identity issues exactly
one POST to the toggle endpoint, whose body carries the post id and a
`liked` field that is always `true`, whatever the network outcome — from
`toggleLike` and from the liked-posts handler alike. -/
theorem toggle_single_request_liked_true (pid pid2 : Int) (uid : Option Int)
    (btn : Option Button) (net1 net2 : NetResult Bool) (cards : List ArticleCard)
    (ci : Option Nat) (attr : Option String) (meta : Option String)
    (hu : jsTruthyId uid = true) (hp : attr.bind parseIntJS = some pid2)
    (hm : jsTruthyId (getCurrentUserId meta) = true) :
    (toggleLike pid uid btn net1).requests = [{ post_id := pid, liked := true }] ∧
    (likedPostsClick cards ci false attr meta net2).requests =
      [{ post_id := pid2, liked := true }] := by
  constructor
  · rcases net1 with _ | ⟨_ | _, body⟩ <;> simp [toggleLike, hu]
  · rcases net2 with _ | ⟨_ | _, _ | _⟩ <;> cases ci <;>
      simp [likedPostsClick, hp, hm]

/-- Concrete instance of `toggle_single_request_liked_true`. -/
theorem toggle_single_request_liked_true_witness :
    jsTruthyId (some 42) = true ∧
    (some "7").bind parseIntJS = some 7 ∧
    jsTruthyId (getCurrentUserId (some "42")) = true ∧
    ((toggleLike 9 (some 42) (some demoButton) NetResult.netError).requests =
       [{ post_id := 9, liked := true }] ∧
     (likedPostsClick [demoCard] (some 0) false (some "7") (some "42")
       (NetResult.resp true false)).requests = [{ post_id := 7, liked := true }]) :=
  ⟨rfl, rfl, rfl,
   toggle_single_request_liked_true 9 7 (some 42) (some demoButton)
     NetResult.netError (NetResult.resp true false) [demoCard] (some 0)
     (some "7") (some "42") rfl rfl rfl⟩

/-- Claim C8: a status query whose fetch rejects or whose response is
non-ok yields `false`; `isLiked` is a total function into a boolean, so
the failure is swallowed, never propagated to the caller. -/
theorem isLiked_failure_false (pid : Int) (uid : Option Int) (net : NetResult Bool)
    (h : net = NetResult.netError ∨ ∃ body, net = NetResult.resp false body) :
    (isLiked pid uid net).result = false := by
  rcases h with rfl | ⟨body, rfl⟩ <;> cases hu : jsTruthyId uid <;> simp [isLiked, hu]

/-- Concrete instance of `isLiked_failure_false`: user 42 queries post 7
and the fetch rejects. -/
theorem isLiked_failure_false_witness :
    (NetResult.netError = (NetResult.netError : NetResult Bool) ∨
      ∃ body, (NetResult.netError : NetResult Bool) = NetResult.resp false body) ∧
    (isLiked 7 (some 42) NetResult.netError).result = false :=
  ⟨Or.inl rfl, isLiked_failure_false 7 (some 42) NetResult.netError (Or.inl rfl)⟩

/-- Claim C9: a user-id meta element with content "0" yields the non-null
identity 0 from `getCurrentUserId`, yet `isLiked` returns false with no
request and `toggleLike` shows the sign-in notice, returns false and
issues no request — the falsiness checks treat viewer 0 as anonymous. -/
theorem zero_user_id_treated_anonymous :
    getCurrentUserId (some "0") = some 0 ∧
    (∀ pid net, isLiked pid (some 0) net = { result := false, requests := 0 }) ∧
    (∀ pid btn net, (toggleLike pid (some 0) btn net).result = false ∧
      (toggleLike pid (some 0) btn net).alerts = [AlertKind.signIn] ∧
      (toggleLike pid (some 0) btn net).requests = [] ∧
      (toggleLike pid (some 0) btn net).button = btn) :=
  ⟨rfl, fun pid net => rfl, fun pid btn net => ⟨rfl, rfl, rfl, rfl⟩⟩

/-- Claim C10: calling `toggleLike` without a button element (a truthy
viewer identity given) performs the single toggle request and returns the
response boolean (false on failure) while the button argument stays
`none`: no element is disabled, re-enabled, replaced by a spinner or
repainted. -/
theorem toggleLike_no_button_frame (pid : Int) (uid : Option Int) (net : NetResult Bool)
    (hu : jsTruthyId uid = true) :
    (toggleLike pid uid none net).button = none ∧
    (toggleLike pid uid none net).requests = [{ post_id := pid, liked := true }] ∧
    (toggleLike pid uid none net).alerts ≠ [AlertKind.signIn] ∧
    (toggleLike pid uid none net).result = netResultLiked net := by
  rcases net with _ | ⟨_ | _, _ | _⟩ <;>
    simp [toggleLike, hu, netResultLiked, updateLikeButton]

/-- Concrete instance of `toggleLike_no_button_frame`: user 42, post 7,
server answers `{liked: false}`. -/
theorem toggleLike_no_button_frame_witness :
    jsTruthyId (some 42) = true ∧
    ((toggleLike 7 (some 42) none (NetResult.resp true false)).button = none ∧
     (toggleLike 7 (some 42) none (NetResult.resp true false)).requests =
       [{ post_id := 7, liked := true }] ∧
     (toggleLike 7 (some 42) none (NetResult.resp true false)).alerts ≠
       [AlertKind.signIn] ∧
     (toggleLike 7 (some 42) none (NetResult.resp true false)).result =
       netResultLiked (NetResult.resp true false)) :=
  ⟨rfl, toggleLike_no_button_frame 7 (some 42) (NetResult.resp true false) rfl⟩

end LikesClient
